import Mathlib

/-!
Shallow embedding of the PySkinDose beam/detector geometry builder and
surface hit-testing engine (`src/pyskindose/beam_class.py`).

Conventions:
* 3-vectors are `Vec3` records with real components; numpy row/column
  operations become explicit component arithmetic.
* 3x3 matrices are `Mat3` records of three row vectors; `matMul`, `mulVec`
  and `transpose` mirror `np.matmul` and `.T`.
* The per-event RDSR data frame `data_norm` becomes a record of functions
  from the event index to real values (one function per column).
* Machine floats are modelled by exact reals; `np.cos`, `np.sin`,
  `np.sqrt` become `Real.cos`, `Real.sin`, `Real.sqrt`.
-/

noncomputable section

namespace PySkinDose

open Real

/-- A 3-vector with real components, standing for one row of a numpy
`(_, 3)` array. -/
@[ext] structure Vec3 where
  x : ℝ
  y : ℝ
  z : ℝ

/-- Euclidean inner product, `np.dot` on 3-vectors. -/
def dot3 (a b : Vec3) : ℝ := a.x * b.x + a.y * b.y + a.z * b.z

/-- Cross product, `np.cross` on 3-vectors. -/
def cross3 (a b : Vec3) : Vec3 :=
  ⟨a.y * b.z - a.z * b.y, a.z * b.x - a.x * b.z, a.x * b.y - a.y * b.x⟩

/-- Componentwise difference of 3-vectors. -/
def sub3 (a b : Vec3) : Vec3 := ⟨a.x - b.x, a.y - b.y, a.z - b.z⟩

/-- Euclidean norm, `np.linalg.norm` of a 3-vector. -/
def norm3 (v : Vec3) : ℝ := Real.sqrt (dot3 v v)

/-- A vector divided by its own Euclidean norm, as in
`(arr.T / np.linalg.norm(arr, axis=1)).T`. -/
def unit3 (v : Vec3) : Vec3 := ⟨v.x / norm3 v, v.y / norm3 v, v.z / norm3 v⟩

/-- A 3x3 matrix given by its three rows. -/
@[ext] structure Mat3 where
  r0 : Vec3
  r1 : Vec3
  r2 : Vec3

/-- Matrix transpose, numpy `.T`. -/
def transpose (M : Mat3) : Mat3 :=
  ⟨⟨M.r0.x, M.r1.x, M.r2.x⟩, ⟨M.r0.y, M.r1.y, M.r2.y⟩, ⟨M.r0.z, M.r1.z, M.r2.z⟩⟩

/-- Matrix product, `np.matmul` for 3x3 matrices. -/
def matMul (A B : Mat3) : Mat3 :=
  ⟨⟨dot3 A.r0 (transpose B).r0, dot3 A.r0 (transpose B).r1, dot3 A.r0 (transpose B).r2⟩,
   ⟨dot3 A.r1 (transpose B).r0, dot3 A.r1 (transpose B).r1, dot3 A.r1 (transpose B).r2⟩,
   ⟨dot3 A.r2 (transpose B).r0, dot3 A.r2 (transpose B).r1, dot3 A.r2 (transpose B).r2⟩⟩

/-- Matrix-vector product, `np.matmul` of a 3x3 matrix with a 3-vector. -/
def mulVec (M : Mat3) (v : Vec3) : Vec3 := ⟨dot3 M.r0 v, dot3 M.r1 v, dot3 M.r2 v⟩

/-- The 3x3 identity matrix. -/
def idMat : Mat3 := ⟨⟨1, 0, 0⟩, ⟨0, 1, 0⟩, ⟨0, 0, 1⟩⟩

/-- Degrees to radians, `np.deg2rad`. -/
def deg2rad (d : ℝ) : ℝ := d * (Real.pi / 180)

/-- Elemental rotation matrix `R1` built from the primary angle
(`beam_class.py`, lines 73-75). -/
def R1 (a : ℝ) : Mat3 :=
  ⟨⟨Real.cos a, Real.sin a, 0⟩, ⟨-Real.sin a, Real.cos a, 0⟩, ⟨0, 0, 1⟩⟩

/-- Elemental rotation matrix `R2` built from the secondary angle
(`beam_class.py`, lines 77-79). -/
def R2 (a : ℝ) : Mat3 :=
  ⟨⟨1, 0, 0⟩, ⟨0, Real.cos a, Real.sin a⟩, ⟨0, -Real.sin a, Real.cos a⟩⟩

/-- Elemental rotation matrix `R3` built from the detector rotation angle
(`beam_class.py`, lines 81-83). -/
def R3 (a : ℝ) : Mat3 :=
  ⟨⟨Real.cos a, 0, -Real.sin a⟩, ⟨0, 1, 0⟩, ⟨Real.sin a, 0, Real.cos a⟩⟩

/-- The composed transform applied to the beam vertices:
`np.matmul(R2, R1).T` composed with `R3.T` (`beam_class.py`, line 101). -/
def beamRot (a1 a2 a3 : ℝ) : Mat3 :=
  matMul (transpose (matMul (R2 a2) (R1 a1))) (transpose (R3 a3))

/-- The composed transform applied to the detector corners:
`np.matmul(R2, R1).T` (`beam_class.py`, line 141). -/
def detRot (a1 a2 : ℝ) : Mat3 := transpose (matMul (R2 a2) (R1 a1))

/-- Orthogonality on both sides. -/
def orth2 (M : Mat3) : Prop :=
  matMul M (transpose M) = idMat ∧ matMul (transpose M) M = idMat

/-- One row per event of the normalized RDSR data frame `data_norm`:
each column used by `Beam.__init__` becomes a function of the event index. -/
structure DataNorm where
  Ap1 : ℕ → ℝ
  Ap2 : ℕ → ℝ
  Ap3 : ℕ → ℝ
  DSI : ℕ → ℝ
  DID : ℕ → ℝ
  FS_long : ℕ → ℝ
  FS_lat : ℕ → ℝ
  DSL : ℕ → ℝ

/-- A five-row array of 3-vectors. -/
def vec5 (a b c d e : Vec3) : Fin 5 → Vec3
  | ⟨0, _⟩ => a
  | ⟨1, _⟩ => b
  | ⟨2, _⟩ => c
  | ⟨3, _⟩ => d
  | ⟨4, _⟩ => e

/-- A four-row array of 3-vectors. -/
def vec4 (a b c d : Vec3) : Fin 4 → Vec3
  | ⟨0, _⟩ => a
  | ⟨1, _⟩ => b
  | ⟨2, _⟩ => c
  | ⟨3, _⟩ => d

/-- An eight-row array of 3-vectors. -/
def vec8 (a b c d e f g h : Vec3) : Fin 8 → Vec3
  | ⟨0, _⟩ => a
  | ⟨1, _⟩ => b
  | ⟨2, _⟩ => c
  | ⟨3, _⟩ => d
  | ⟨4, _⟩ => e
  | ⟨5, _⟩ => f
  | ⟨6, _⟩ => g
  | ⟨7, _⟩ => h

/-- The angle actually used by `Beam.__init__`: zero when `plot_setup`
is set, otherwise the data-frame angle converted to radians
(`beam_class.py`, lines 59-71). -/
def apRad (plot_setup : Bool) (deg : ℝ) : ℝ :=
  if plot_setup then 0 else deg2rad deg

/-- The five world-frame beam vertices (`beam_class.py`, lines 85-101):
the source `(0, DSI, 0)` stacked on the four scaled unit-pyramid corners,
each row multiplied by the composed beam transform. -/
def beamR (a1 a2 a3 FSlong DID FSlat DSI : ℝ) : Fin 5 → Vec3 := fun i =>
  mulVec (beamRot a1 a2 a3)
    (vec5 (Vec3.mk 0 DSI 0)
      (Vec3.mk (0.5 * FSlong) (-1 * DID) (0.5 * FSlat))
      (Vec3.mk (0.5 * FSlong) (-1 * DID) (-0.5 * FSlat))
      (Vec3.mk (-0.5 * FSlong) (-1 * DID) (-0.5 * FSlat))
      (Vec3.mk (-0.5 * FSlong) (-1 * DID) (0.5 * FSlat)) i)

/-- The unit vectors from the X-ray source (row 0) to the four beam
vertices (rows 1-4), `beam_class.py`, lines 111-113. -/
def edgeUnit (r : Fin 5 → Vec3) (k : Fin 4) : Vec3 :=
  unit3 (sub3 (r k.succ) (r 0))

/-- The four face normals of the beam (`beam_class.py`, lines 115-119):
cross products of cyclically consecutive unit edge vectors. -/
def beamN (r : Fin 5 → Vec3) : Fin 4 → Vec3 :=
  vec4 (cross3 (edgeUnit r 0) (edgeUnit r 1))
    (cross3 (edgeUnit r 1) (edgeUnit r 2))
    (cross3 (edgeUnit r 2) (edgeUnit r 3))
    (cross3 (edgeUnit r 3) (edgeUnit r 0))

/-- The eight world-frame detector corners (`beam_class.py`, lines
121-141): a unit cuboid scaled by the detector width (first and third
axes) and the source-detector distance (second axis), then multiplied by
the composed detector transform. -/
def detR (a1 a2 width DID : ℝ) : Fin 8 → Vec3 := fun i =>
  mulVec (detRot a1 a2)
    (vec8 (Vec3.mk (0.5 * width) (-1 * DID) (0.5 * width))
      (Vec3.mk (0.5 * width) (-1 * DID) (-0.5 * width))
      (Vec3.mk (-0.5 * width) (-1 * DID) (-0.5 * width))
      (Vec3.mk (-0.5 * width) (-1 * DID) (0.5 * width))
      (Vec3.mk (0.5 * width) (-1.2 * DID) (0.5 * width))
      (Vec3.mk (0.5 * width) (-1.2 * DID) (-0.5 * width))
      (Vec3.mk (-0.5 * width) (-1.2 * DID) (-0.5 * width))
      (Vec3.mk (-0.5 * width) (-1.2 * DID) (0.5 * width)) i)

/-- The X-ray beam and detector of one irradiation event: the fields set
by `Beam.__init__`. -/
structure Beam where
  r : Fin 5 → Vec3
  ijk : List (ℕ × ℕ × ℕ)
  N : Fin 4 → Vec3
  det_r : Fin 8 → Vec3
  det_ijk : List (ℕ × ℕ × ℕ)

/-- The vertex index triples for plotting the beam
(`beam_class.py`, lines 106-109). -/
def beamIjk : List (ℕ × ℕ × ℕ) :=
  [(0, 1, 2), (0, 1, 4), (0, 3, 2), (0, 3, 4), (1, 2, 3), (1, 3, 4)]

/-- The vertex index triples for plotting the detector
(`beam_class.py`, lines 145-148). -/
def detIjk : List (ℕ × ℕ × ℕ) :=
  [(0, 1, 2), (0, 2, 3), (4, 5, 6), (4, 6, 7), (0, 1, 4), (1, 5, 4),
   (0, 3, 4), (3, 7, 4), (3, 2, 7), (7, 2, 6), (1, 2, 6), (1, 6, 5)]

/-- `Beam.__init__` (`beam_class.py`, lines 39-148): note that the
detector width reads column `DSL` at row 0, not at `event`. -/
def mkBeam (data : DataNorm) (event : ℕ) (plot_setup : Bool) : Beam :=
  { r := beamR (apRad plot_setup (data.Ap1 event)) (apRad plot_setup (data.Ap2 event))
      (apRad plot_setup (data.Ap3 event)) (data.FS_long event) (data.DID event)
      (data.FS_lat event) (data.DSI event)
    ijk := beamIjk
    N := beamN (beamR (apRad plot_setup (data.Ap1 event)) (apRad plot_setup (data.Ap2 event))
      (apRad plot_setup (data.Ap3 event)) (data.FS_long event) (data.DID event)
      (data.FS_lat event) (data.DSI event))
    det_r := detR (apRad plot_setup (data.Ap1 event)) (apRad plot_setup (data.Ap2 event))
      (data.DSL 0) (data.DID event)
    det_ijk := detIjk }

/-- The patient phantom as consumed by `Beam.check_hit`: skin-cell
positions `r`, skin-cell normals `n` and the phantom kind tag
`phantom_model` (the `Phantom` class itself lives outside this module;
these are exactly the attributes `check_hit` reads). -/
structure Phantom where
  r : List Vec3
  n : List Vec3
  phantom_model : String

/-- Boolean masking `l[bs]` of a row list by a boolean array. -/
def maskRows {α : Type} : List α → List Bool → List α
  | [], _ => []
  | _ :: _, [] => []
  | a :: l, bb :: bs => if bb then a :: maskRows l bs else maskRows l bs

/-- Boolean-indexed assignment `hits[np.where(hits)] = repl`: each `true`
entry is replaced by the next value of `repl`, in order. -/
def scatterTrue : List Bool → List Bool → List Bool
  | [], _ => []
  | false :: hs, bs => false :: scatterTrue hs bs
  | true :: hs, [] => true :: scatterTrue hs []
  | true :: hs, b :: bs => b :: scatterTrue hs bs

open Classical in
/-- The elementwise test `(np.dot(v, N.T) <= 0).all(axis=1)` for one row
`w` (`beam_class.py`, line 173). -/
def insideCone (N : Fin 4 → Vec3) (w : Vec3) : Bool :=
  decide (∀ k : Fin 4, dot3 w (N k) ≤ 0)

open Classical in
/-- One entry of `bool_entrance` (`beam_class.py`, lines 179-180). -/
def entranceFacing (a b : Vec3) : Bool := decide (dot3 a b ≤ 0)

/-- `Beam.check_hit` (`beam_class.py`, lines 150-184). -/
def check_hit (b : Beam) (patient : Phantom) : List Bool :=
  let v := patient.r.map fun p => sub3 p (b.r 0)
  let hits := v.map (insideCone b.N)
  if patient.phantom_model ≠ "plane" then
    let temp1 := maskRows v hits
    let temp2 := maskRows patient.n hits
    let bool_entrance := (temp1.zip temp2).map fun q => entranceFacing q.1 q.2
    scatterTrue hits bool_entrance
  else
    hits

/-- Event data of the reference scenario: all angles zero, longitudinal
half-width 20, lateral half-width 10, source-detector distance 100,
source-isocenter distance 60. -/
def exData : DataNorm :=
  ⟨fun _ => 0, fun _ => 0, fun _ => 0, fun _ => 60, fun _ => 100,
   fun _ => 20, fun _ => 10, fun _ => 30⟩

/-- The beam of the reference scenario. -/
def exBeam : Beam := mkBeam exData 0 false

/-- A plane phantom with a single skin cell at the isocenter. -/
def phantomA : Phantom := ⟨[⟨0, 0, 0⟩], [], "plane"⟩

/-- A plane phantom with a single skin cell at lateral offset 15. -/
def phantomB : Phantom := ⟨[⟨0, 0, 15⟩], [], "plane"⟩

/-- A volumetric (cylinder) phantom with one skin cell and one normal. -/
def phantomC : Phantom := ⟨[⟨0, 0, 0⟩], [⟨0, 1, 0⟩], "cylinder"⟩

/-- Event data with a nonzero secondary angle (90 degrees). -/
def c3data : DataNorm :=
  ⟨fun _ => 0, fun _ => 90, fun _ => 0, fun _ => 60, fun _ => 100,
   fun _ => 20, fun _ => 10, fun _ => 30⟩

/-- Event data whose detector side length column differs between event 0
(value 7) and every later event (value 9). -/
def c4data : DataNorm :=
  ⟨fun _ => 0, fun _ => 0, fun _ => 0, fun _ => 60, fun _ => 100,
   fun _ => 20, fun _ => 10, fun e => if e = 0 then 7 else 9⟩

/-- Event data with zero longitudinal collimation width (a degenerate
beam). -/
def c5data : DataNorm :=
  ⟨fun _ => 0, fun _ => 0, fun _ => 0, fun _ => 60, fun _ => 100,
   fun _ => 0, fun _ => 10, fun _ => 30⟩

@[simp] lemma vec5_zero (a b c d e : Vec3) : vec5 a b c d e 0 = a := rfl
@[simp] lemma vec5_one (a b c d e : Vec3) : vec5 a b c d e 1 = b := rfl
@[simp] lemma vec5_two (a b c d e : Vec3) : vec5 a b c d e 2 = c := rfl
@[simp] lemma vec5_three (a b c d e : Vec3) : vec5 a b c d e 3 = d := rfl
@[simp] lemma vec5_four (a b c d e : Vec3) : vec5 a b c d e 4 = e := rfl

@[simp] lemma vec4_zero (a b c d : Vec3) : vec4 a b c d 0 = a := rfl
@[simp] lemma vec4_one (a b c d : Vec3) : vec4 a b c d 1 = b := rfl
@[simp] lemma vec4_two (a b c d : Vec3) : vec4 a b c d 2 = c := rfl
@[simp] lemma vec4_three (a b c d : Vec3) : vec4 a b c d 3 = d := rfl

@[simp] lemma vec8_zero (a b c d e f g h : Vec3) : vec8 a b c d e f g h 0 = a := rfl

@[simp] lemma apRad_false (d : ℝ) : apRad false d = deg2rad d := rfl

@[simp] lemma apRad_true (d : ℝ) : apRad true d = 0 := rfl

@[simp] lemma deg2rad_zero : deg2rad 0 = 0 := by rw [deg2rad]; ring

lemma edgeUnit_zero (r : Fin 5 → Vec3) : edgeUnit r 0 = unit3 (sub3 (r 1) (r 0)) := rfl

lemma edgeUnit_one (r : Fin 5 → Vec3) : edgeUnit r 1 = unit3 (sub3 (r 2) (r 0)) := rfl

lemma edgeUnit_two (r : Fin 5 → Vec3) : edgeUnit r 2 = unit3 (sub3 (r 3) (r 0)) := rfl

lemma edgeUnit_three (r : Fin 5 → Vec3) : edgeUnit r 3 = unit3 (sub3 (r 4) (r 0)) := rfl

lemma matMul_assoc (A B C : Mat3) :
    matMul (matMul A B) C = matMul A (matMul B C) := by
  ext <;> simp [matMul, transpose, dot3] <;> ring

lemma transpose_matMul (A B : Mat3) :
    transpose (matMul A B) = matMul (transpose B) (transpose A) := by
  ext <;> simp [matMul, transpose, dot3] <;> ring

lemma transpose_transpose (A : Mat3) : transpose (transpose A) = A := rfl

lemma matMul_idMat (A : Mat3) : matMul A idMat = A := by
  ext <;> simp [matMul, transpose, dot3, idMat]

lemma idMat_matMul (A : Mat3) : matMul idMat A = A := by
  ext <;> simp [matMul, transpose, dot3, idMat]

lemma orth2_transpose {M : Mat3} (h : orth2 M) : orth2 (transpose M) := by
  constructor
  · rw [transpose_transpose]
    exact h.2
  · rw [transpose_transpose]
    exact h.1

lemma orth2_matMul {A B : Mat3} (hA : orth2 A) (hB : orth2 B) :
    orth2 (matMul A B) := by
  constructor
  · rw [transpose_matMul, matMul_assoc, ← matMul_assoc B, hB.1, idMat_matMul, hA.1]
  · rw [transpose_matMul, matMul_assoc, ← matMul_assoc (transpose A), hA.2,
      idMat_matMul, hB.2]

lemma orth2_R1 (a : ℝ) : orth2 (R1 a) := by
  constructor <;>
    · ext <;> simp [matMul, transpose, dot3, R1, idMat] <;> ring_nf <;>
        nlinarith [Real.sin_sq_add_cos_sq a]

lemma orth2_R2 (a : ℝ) : orth2 (R2 a) := by
  constructor <;>
    · ext <;> simp [matMul, transpose, dot3, R2, idMat] <;> ring_nf <;>
        nlinarith [Real.sin_sq_add_cos_sq a]

lemma orth2_R3 (a : ℝ) : orth2 (R3 a) := by
  constructor <;>
    · ext <;> simp [matMul, transpose, dot3, R3, idMat] <;> ring_nf <;>
        nlinarith [Real.sin_sq_add_cos_sq a]

lemma orth2_beamRot (a1 a2 a3 : ℝ) : orth2 (beamRot a1 a2 a3) :=
  orth2_matMul (orth2_transpose (orth2_matMul (orth2_R2 a2) (orth2_R1 a1)))
    (orth2_transpose (orth2_R3 a3))

lemma orth2_detRot (a1 a2 : ℝ) : orth2 (detRot a1 a2) :=
  orth2_transpose (orth2_matMul (orth2_R2 a2) (orth2_R1 a1))

lemma scatterTrue_length : ∀ (hs bs : List Bool), (scatterTrue hs bs).length = hs.length
  | [], _ => rfl
  | false :: hs, bs => by simp [scatterTrue, scatterTrue_length hs bs]
  | true :: hs, [] => by simp [scatterTrue, scatterTrue_length hs []]
  | true :: hs, _ :: bs => by simp [scatterTrue, scatterTrue_length hs bs]

lemma getD_map {α β : Type} (f : α → β) (d : β) (d' : α) :
    ∀ (l : List α) (i : ℕ), i < l.length → (l.map f).getD i d = f (l.getD i d')
  | a :: l, 0, _ => rfl
  | a :: l, i + 1, h => by
    simp only [List.map_cons, List.getD_cons_succ]
    exact getD_map f d d' l i (by simpa using h)

lemma getD_zip_map {α β γ : Type} (h : α × β → γ) (d : γ) (d1 : α) (d2 : β) :
    ∀ (l1 : List α) (l2 : List β) (i : ℕ), i < l1.length → i < l2.length →
      ((l1.zip l2).map h).getD i d = h (l1.getD i d1, l2.getD i d2)
  | a :: l1, b :: l2, 0, _, _ => rfl
  | a :: l1, b :: l2, i + 1, h1, h2 => by
    simp only [List.zip_cons_cons, List.map_cons, List.getD_cons_succ]
    exact getD_zip_map h d d1 d2 l1 l2 i (by simpa using h1) (by simpa using h2)

lemma scatterTrue_mask {α β : Type} (f : α → Bool) (g : α → β → Bool) :
    ∀ (xs : List α) (ns : List β), ns.length = xs.length →
      scatterTrue (xs.map f)
        (((maskRows xs (xs.map f)).zip (maskRows ns (xs.map f))).map fun q => g q.1 q.2) =
      (xs.zip ns).map fun q => f q.1 && g q.1 q.2 := by
  intro xs
  induction xs with
  | nil =>
    intro ns h
    simp [maskRows, scatterTrue]
  | cons x xs ih =>
    intro ns h
    cases ns with
    | nil => simp at h
    | cons y ns =>
      have hlen : ns.length = xs.length := by simpa using h
      cases hf : f x with
      | true =>
        simp only [List.map_cons, hf, maskRows, if_pos, List.zip_cons_cons,
          scatterTrue, Bool.true_and]
        exact congrArg (g x y :: ·) (ih ns hlen)
      | false =>
        simp only [List.map_cons, hf, maskRows, if_neg, Bool.false_eq_true,
          not_false_eq_true, List.zip_cons_cons, scatterTrue, Bool.false_and]
        exact congrArg (false :: ·) (ih ns hlen)

/-- On a plane phantom, `check_hit` is the pure cone-membership map. -/
lemma check_hit_plane (b : Beam) (p : Phantom) (h : p.phantom_model = "plane") :
    check_hit b p = p.r.map fun q => insideCone b.N (sub3 q (b.r 0)) := by
  simp [check_hit, h, List.map_map, Function.comp]

/-- On a volumetric phantom with as many normals as points, `check_hit`
is the conjunction of cone membership and the entrance test. -/
lemma check_hit_vol (b : Beam) (p : Phantom) (h : p.phantom_model ≠ "plane")
    (hl : p.n.length = p.r.length) :
    check_hit b p = (p.r.zip p.n).map fun q =>
      insideCone b.N (sub3 q.1 (b.r 0)) &&
        entranceFacing (sub3 q.1 (b.r 0)) q.2 := by
  simp only [check_hit, if_pos h]
  rw [scatterTrue_mask (insideCone b.N) entranceFacing (p.r.map fun q => sub3 q (b.r 0)) p.n
    (by simpa using hl)]
  simp [List.zip_map_left, List.map_map, Function.comp, Prod.map]

/-- Claim C1: for every beam and every plane phantom with N surface
points, `check_hit` returns one boolean per input point in input order (a
list of length N), and the i-th entry is true iff
`dot3 (p i - apex) (N k) <= 0` for all four face normals, where the apex
is row 0 of the beam point array. -/
theorem claim_C1 (b : Beam) (p : Phantom) (h : p.phantom_model = "plane") :
    (check_hit b p).length = p.r.length ∧
      ∀ i, i < p.r.length →
        ((check_hit b p).getD i false = true ↔
          ∀ k : Fin 4, dot3 (sub3 (p.r.getD i (Vec3.mk 0 0 0)) (b.r 0)) (b.N k) ≤ 0) := by
  rw [check_hit_plane b p h]
  refine ⟨List.length_map _ _, fun i hi => ?_⟩
  rw [getD_map _ _ (Vec3.mk 0 0 0) _ _ hi]
  simp [insideCone]

/-- Witness for claim C1 at the reference beam and plane phantom. -/
theorem claim_C1_witness :
    phantomA.phantom_model = "plane" ∧ (check_hit exBeam phantomA).length = phantomA.r.length :=
  ⟨rfl, (claim_C1 exBeam phantomA rfl).1⟩

/-- Claim C2: for every beam and every volumetric (non-plane) phantom
with as many normals as points, the i-th output of `check_hit` is true
iff point i passes all four half-space tests and additionally
`dot3 (p i - apex) (n i) <= 0`; exit-facing points are discarded even
when inside the cone. -/
theorem claim_C2 (b : Beam) (p : Phantom) (h : p.phantom_model ≠ "plane")
    (hl : p.n.length = p.r.length) :
    (check_hit b p).length = p.r.length ∧
      ∀ i, i < p.r.length →
        ((check_hit b p).getD i false = true ↔
          ((∀ k : Fin 4, dot3 (sub3 (p.r.getD i (Vec3.mk 0 0 0)) (b.r 0)) (b.N k) ≤ 0) ∧
            dot3 (sub3 (p.r.getD i (Vec3.mk 0 0 0)) (b.r 0)) (p.n.getD i (Vec3.mk 0 0 0)) ≤ 0)) := by
  rw [check_hit_vol b p h hl]
  constructor
  · rw [List.length_map, List.length_zip, hl, min_self]
  · intro i hi
    rw [getD_zip_map _ _ (Vec3.mk 0 0 0) (Vec3.mk 0 0 0) _ _ _ hi (hl ▸ hi)]
    simp [insideCone, entranceFacing]

/-- Witness for claim C2 at the reference beam and a cylinder phantom. -/
theorem claim_C2_witness :
    phantomC.phantom_model ≠ "plane" ∧ phantomC.n.length = phantomC.r.length ∧
      (check_hit exBeam phantomC).length = phantomC.r.length :=
  ⟨by simp [phantomC], rfl, (claim_C2 exBeam phantomC (by simp [phantomC]) rfl).1⟩

/-- Claim C6: for every angle triple, each elemental rotation matrix and
each composed transform built from them (the beam transform and the
detector-panel transform) satisfies R * transpose R = identity over exact
real arithmetic. -/
theorem claim_C6 (a1 a2 a3 : ℝ) :
    matMul (R1 a1) (transpose (R1 a1)) = idMat ∧
      matMul (R2 a2) (transpose (R2 a2)) = idMat ∧
      matMul (R3 a3) (transpose (R3 a3)) = idMat ∧
      matMul (beamRot a1 a2 a3) (transpose (beamRot a1 a2 a3)) = idMat ∧
      matMul (detRot a1 a2) (transpose (detRot a1 a2)) = idMat :=
  ⟨(orth2_R1 a1).1, (orth2_R2 a2).1, (orth2_R3 a3).1,
    (orth2_beamRot a1 a2 a3).1, (orth2_detRot a1 a2).1⟩

/-- Claim C7: for every constructed beam, the stored face normal k is the
cross product of the unit vector from the apex (row 0) to base corner k
and the unit vector from the apex to base corner k+1 mod 4. -/
theorem claim_C7 (data : DataNorm) (event : ℕ) (ps : Bool) (k : Fin 4) :
    (mkBeam data event ps).N k =
      cross3
        (unit3 (sub3 ((mkBeam data event ps).r k.succ) ((mkBeam data event ps).r 0)))
        (unit3 (sub3 ((mkBeam data event ps).r (k + 1).succ) ((mkBeam data event ps).r 0))) := by
  fin_cases k <;> rfl

/-- Claim C9: `check_hit` is a pure function of the beam apex, the beam
normals, the phantom points, the phantom normals and the phantom kind
tag: any two beam/phantom pairs agreeing on these fields produce the same
output, so repeated calls with identical inputs agree and no hidden state
is involved. -/
theorem claim_C9 (b b' : Beam) (p p' : Phantom) (h0 : b.r 0 = b'.r 0)
    (hN : b.N = b'.N) (hr : p.r = p'.r) (hn : p.n = p'.n)
    (hm : p.phantom_model = p'.phantom_model) :
    check_hit b p = check_hit b' p' := by
  simp only [check_hit, h0, hN, hr, hn, hm]

/-- Witness for claim C9: the reference beam and phantom give the same
result as themselves. -/
theorem claim_C9_witness : check_hit exBeam phantomA = check_hit exBeam phantomA :=
  claim_C9 exBeam exBeam phantomA phantomA rfl rfl rfl rfl rfl

lemma dot3_beamRot_source (a1 a2 a3 d : ℝ) :
    dot3 (mulVec (beamRot a1 a2 a3) (Vec3.mk 0 d 0))
      (mulVec (beamRot a1 a2 a3) (Vec3.mk 0 d 0)) = d ^ 2 := by
  simp only [beamRot, matMul, transpose, mulVec, dot3, R1, R2, R3]
  linear_combination (d ^ 2 * Real.cos a2 ^ 2) * Real.sin_sq_add_cos_sq a1 +
    d ^ 2 * Real.sin_sq_add_cos_sq a2

lemma norm3_nonneg (v : Vec3) : 0 ≤ norm3 v := Real.sqrt_nonneg _

lemma norm3_pos {v : Vec3} (h : 0 < dot3 v v) : 0 < norm3 v := Real.sqrt_pos.mpr h

lemma dot3_cross3_unit3 (w a b : Vec3) :
    dot3 w (cross3 (unit3 a) (unit3 b)) = dot3 w (cross3 a b) / (norm3 a * norm3 b) := by
  simp only [unit3, cross3, dot3, div_eq_mul_inv, mul_inv]
  ring

lemma dotN_nonpos {w a b : Vec3} (h : dot3 w (cross3 a b) ≤ 0) :
    dot3 w (cross3 (unit3 a) (unit3 b)) ≤ 0 := by
  rw [dot3_cross3_unit3]
  exact div_nonpos_iff.mpr (Or.inr ⟨h, mul_nonneg (norm3_nonneg a) (norm3_nonneg b)⟩)

lemma dotN_pos {w a b : Vec3} (h : 0 < dot3 w (cross3 a b))
    (ha : 0 < dot3 a a) (hb : 0 < dot3 b b) :
    0 < dot3 w (cross3 (unit3 a) (unit3 b)) := by
  rw [dot3_cross3_unit3]
  exact div_pos h (mul_pos (norm3_pos ha) (norm3_pos hb))

lemma beamRot_zero_mulVec (w : Vec3) : mulVec (beamRot 0 0 0) w = w := by
  ext <;> simp [beamRot, matMul, transpose, mulVec, dot3, R1, R2, R3]

lemma beamRot_fix_source (a3 d : ℝ) :
    mulVec (beamRot 0 0 a3) (Vec3.mk 0 d 0) = Vec3.mk 0 d 0 := by
  ext <;> simp [beamRot, matMul, transpose, mulVec, dot3, R1, R2, R3]

lemma detRot_zero_mulVec (w : Vec3) : mulVec (detRot 0 0) w = w := by
  ext <;> simp [detRot, matMul, transpose, mulVec, dot3, R1, R2]

lemma beamR_zero (FSlong DID FSlat DSI : ℝ) (i : Fin 5) :
    beamR 0 0 0 FSlong DID FSlat DSI i =
      vec5 (Vec3.mk 0 DSI 0)
        (Vec3.mk (0.5 * FSlong) (-1 * DID) (0.5 * FSlat))
        (Vec3.mk (0.5 * FSlong) (-1 * DID) (-0.5 * FSlat))
        (Vec3.mk (-0.5 * FSlong) (-1 * DID) (-0.5 * FSlat))
        (Vec3.mk (-0.5 * FSlong) (-1 * DID) (0.5 * FSlat)) i := by
  simp only [beamR]
  exact beamRot_zero_mulVec _

lemma detR_zero (width DID : ℝ) (i : Fin 8) :
    detR 0 0 width DID i =
      vec8 (Vec3.mk (0.5 * width) (-1 * DID) (0.5 * width))
        (Vec3.mk (0.5 * width) (-1 * DID) (-0.5 * width))
        (Vec3.mk (-0.5 * width) (-1 * DID) (-0.5 * width))
        (Vec3.mk (-0.5 * width) (-1 * DID) (0.5 * width))
        (Vec3.mk (0.5 * width) (-1.2 * DID) (0.5 * width))
        (Vec3.mk (0.5 * width) (-1.2 * DID) (-0.5 * width))
        (Vec3.mk (-0.5 * width) (-1.2 * DID) (-0.5 * width))
        (Vec3.mk (-0.5 * width) (-1.2 * DID) (0.5 * width)) i := by
  simp only [detR]
  exact detRot_zero_mulVec _

/-- Claim C3 counterexample: with a secondary angle of 90 degrees and
source-to-isocenter distance 60, row 0 of the beam point array is
(0, 0, 60), not (0, 60, 0). -/
theorem claim_C3_counterexample :
    (mkBeam c3data 0 false).r 0 ≠ Vec3.mk 0 (c3data.DSI 0) 0 := by
  have h2 : apRad false (c3data.Ap2 0) = Real.pi / 2 := by
    rw [show c3data.Ap2 0 = (90 : ℝ) from rfl, apRad_false, deg2rad]
    ring
  have hr : (mkBeam c3data 0 false).r 0 = Vec3.mk 0 0 60 := by
    simp only [mkBeam, beamR, vec5_zero]
    rw [show c3data.Ap1 0 = (0 : ℝ) from rfl, show c3data.Ap3 0 = (0 : ℝ) from rfl,
      show c3data.DSI 0 = (60 : ℝ) from rfl, h2, apRad_false, deg2rad_zero]
    ext <;>
      simp [beamRot, matMul, transpose, mulVec, dot3, R1, R2, R3,
        Real.cos_pi_div_two, Real.sin_pi_div_two]
  rw [hr, show c3data.DSI 0 = (60 : ℝ) from rfl]
  intro h
  have hy := congrArg Vec3.y h
  norm_num at hy

/-- Claim C3 amended: row 0 of the beam point array is the composed beam
transform applied to (0, DSI, 0); whenever the primary and secondary
angles of the event are zero it equals (0, DSI, 0) for every
detector-rotation angle, but not for general angle triples. -/
theorem claim_C3_amended (data : DataNorm) (event : ℕ) (ps : Bool)
    (h1 : data.Ap1 event = 0) (h2 : data.Ap2 event = 0) :
    (mkBeam data event ps).r 0 = Vec3.mk 0 (data.DSI event) 0 := by
  simp only [mkBeam, beamR, vec5_zero]
  cases ps with
  | false =>
    rw [h1, h2, apRad_false, apRad_false, deg2rad_zero]
    exact beamRot_fix_source _ _
  | true =>
    rw [apRad_true, apRad_true]
    exact beamRot_fix_source _ _

/-- Witness for claim C3 (amended) at the all-angles-zero reference
event. -/
theorem claim_C3_witness :
    exData.Ap1 0 = 0 ∧ exData.Ap2 0 = 0 ∧
      (mkBeam exData 0 false).r 0 = Vec3.mk 0 (exData.DSI 0) 0 :=
  ⟨rfl, rfl, claim_C3_amended exData 0 false rfl rfl⟩

/-- Claim C4 counterexample: with detector side length 7 at event 0 and 9
at event 1, the detector cuboid of event 1 is scaled by 7 (the value of
the first event), not by event 1's own value 9. -/
theorem claim_C4_counterexample :
    (mkBeam c4data 1 false).det_r 0 = Vec3.mk (0.5 * 7) (-1 * 100) (0.5 * 7) ∧
      c4data.DSL 1 = 9 ∧
      (mkBeam c4data 1 false).det_r 0 ≠
        Vec3.mk (0.5 * c4data.DSL 1) (-1 * c4data.DID 1) (0.5 * c4data.DSL 1) := by
  have hd : (mkBeam c4data 1 false).det_r 0 = Vec3.mk (0.5 * 7) (-1 * 100) (0.5 * 7) := by
    simp only [mkBeam]
    rw [show c4data.Ap1 1 = (0 : ℝ) from rfl, show c4data.Ap2 1 = (0 : ℝ) from rfl,
      apRad_false, deg2rad_zero, show c4data.DSL 0 = (7 : ℝ) from rfl,
      show c4data.DID 1 = (100 : ℝ) from rfl]
    exact detR_zero 7 100 0
  refine ⟨hd, rfl, ?_⟩
  rw [hd, show c4data.DSL 1 = (9 : ℝ) from rfl]
  intro h
  have hx := congrArg Vec3.x h
  norm_num at hx

/-- Claim C4 amended: the detector cuboid of event e has its first and
third axes scaled by the detector side length of the FIRST event (column
`DSL` at row 0, regardless of e) and its second axis by event e's
source-to-detector distance; shown here with the detector transform equal
to the identity (zero primary and secondary angles). -/
theorem claim_C4_amended (data : DataNorm) (event : ℕ) (ps : Bool) (i : Fin 8)
    (h1 : data.Ap1 event = 0) (h2 : data.Ap2 event = 0) :
    (mkBeam data event ps).det_r i =
      vec8 (Vec3.mk (0.5 * data.DSL 0) (-1 * data.DID event) (0.5 * data.DSL 0))
        (Vec3.mk (0.5 * data.DSL 0) (-1 * data.DID event) (-0.5 * data.DSL 0))
        (Vec3.mk (-0.5 * data.DSL 0) (-1 * data.DID event) (-0.5 * data.DSL 0))
        (Vec3.mk (-0.5 * data.DSL 0) (-1 * data.DID event) (0.5 * data.DSL 0))
        (Vec3.mk (0.5 * data.DSL 0) (-1.2 * data.DID event) (0.5 * data.DSL 0))
        (Vec3.mk (0.5 * data.DSL 0) (-1.2 * data.DID event) (-0.5 * data.DSL 0))
        (Vec3.mk (-0.5 * data.DSL 0) (-1.2 * data.DID event) (-0.5 * data.DSL 0))
        (Vec3.mk (-0.5 * data.DSL 0) (-1.2 * data.DID event) (0.5 * data.DSL 0)) i := by
  simp only [mkBeam]
  cases ps with
  | false =>
    rw [h1, h2, apRad_false, deg2rad_zero]
    exact detR_zero _ _ i
  | true =>
    rw [apRad_true]
    exact detR_zero _ _ i

/-- Witness for claim C4 (amended) at event 1 of the two-valued detector
side length data. -/
theorem claim_C4_witness :
    c4data.Ap1 1 = 0 ∧ c4data.Ap2 1 = 0 ∧
      (mkBeam c4data 1 false).det_r 0 =
        vec8 (Vec3.mk (0.5 * c4data.DSL 0) (-1 * c4data.DID 1) (0.5 * c4data.DSL 0))
          (Vec3.mk (0.5 * c4data.DSL 0) (-1 * c4data.DID 1) (-0.5 * c4data.DSL 0))
          (Vec3.mk (-0.5 * c4data.DSL 0) (-1 * c4data.DID 1) (-0.5 * c4data.DSL 0))
          (Vec3.mk (-0.5 * c4data.DSL 0) (-1 * c4data.DID 1) (0.5 * c4data.DSL 0))
          (Vec3.mk (0.5 * c4data.DSL 0) (-1.2 * c4data.DID 1) (0.5 * c4data.DSL 0))
          (Vec3.mk (0.5 * c4data.DSL 0) (-1.2 * c4data.DID 1) (-0.5 * c4data.DSL 0))
          (Vec3.mk (-0.5 * c4data.DSL 0) (-1.2 * c4data.DID 1) (-0.5 * c4data.DSL 0))
          (Vec3.mk (-0.5 * c4data.DSL 0) (-1.2 * c4data.DID 1) (0.5 * c4data.DSL 0)) 0 :=
  ⟨rfl, rfl, claim_C4_amended c4data 1 false 0 rfl rfl⟩

lemma exBeam_r (i : Fin 5) :
    exBeam.r i =
      vec5 (Vec3.mk 0 60 0) (Vec3.mk 10 (-100) 5) (Vec3.mk 10 (-100) (-5))
        (Vec3.mk (-10) (-100) (-5)) (Vec3.mk (-10) (-100) 5) i := by
  have h : exBeam.r i = beamR 0 0 0 20 100 10 60 i := by
    simp [exBeam, mkBeam, exData]
  rw [h, beamR_zero]
  have e1 : Vec3.mk (0.5 * 20 : ℝ) (-1 * 100) (0.5 * 10) = Vec3.mk 10 (-100) 5 := by
    ext <;> norm_num
  have e2 : Vec3.mk (0.5 * 20 : ℝ) (-1 * 100) (-0.5 * 10) = Vec3.mk 10 (-100) (-5) := by
    ext <;> norm_num
  have e3 : Vec3.mk (-0.5 * 20 : ℝ) (-1 * 100) (-0.5 * 10) = Vec3.mk (-10) (-100) (-5) := by
    ext <;> norm_num
  have e4 : Vec3.mk (-0.5 * 20 : ℝ) (-1 * 100) (0.5 * 10) = Vec3.mk (-10) (-100) 5 := by
    ext <;> norm_num
  rw [e1, e2, e3, e4]

lemma exBeam_N (k : Fin 4) :
    exBeam.N k =
      beamN (vec5 (Vec3.mk 0 60 0) (Vec3.mk 10 (-100) 5) (Vec3.mk 10 (-100) (-5))
        (Vec3.mk (-10) (-100) (-5)) (Vec3.mk (-10) (-100) 5)) k := by
  have h : exBeam.N = beamN exBeam.r := rfl
  rw [h]
  exact congrFun (congrArg beamN (funext exBeam_r)) k

/-- Claim C8: with longitudinal half-width 20, lateral half-width 10,
source-to-detector distance 100, source-to-isocenter distance 60 and all
angles zero, a plane phantom with its single point at the isocenter is
hit, and the same point moved to lateral offset 15 is not hit. -/
theorem claim_C8 :
    check_hit exBeam phantomA = [true] ∧ check_hit exBeam phantomB = [false] := by
  constructor
  · rw [check_hit_plane exBeam phantomA rfl]
    simp only [phantomA, List.map_cons, List.map_nil, List.cons.injEq, and_true]
    simp only [insideCone, decide_eq_true_eq]
    intro k
    rw [exBeam_N k, exBeam_r 0, vec5_zero]
    fin_cases k
    · rw [show (⟨0, by norm_num⟩ : Fin 4) = 0 from rfl, beamN, vec4_zero,
        edgeUnit_zero, edgeUnit_one, vec5_zero, vec5_one, vec5_two]
      exact dotN_nonpos (by norm_num [dot3, cross3, sub3])
    · rw [show (⟨1, by norm_num⟩ : Fin 4) = 1 from rfl, beamN, vec4_one,
        edgeUnit_one, edgeUnit_two, vec5_zero, vec5_two, vec5_three]
      exact dotN_nonpos (by norm_num [dot3, cross3, sub3])
    · rw [show (⟨2, by norm_num⟩ : Fin 4) = 2 from rfl, beamN, vec4_two,
        edgeUnit_two, edgeUnit_three, vec5_zero, vec5_three, vec5_four]
      exact dotN_nonpos (by norm_num [dot3, cross3, sub3])
    · rw [show (⟨3, by norm_num⟩ : Fin 4) = 3 from rfl, beamN, vec4_three,
        edgeUnit_three, edgeUnit_zero, vec5_zero, vec5_four, vec5_one]
      exact dotN_nonpos (by norm_num [dot3, cross3, sub3])
  · rw [check_hit_plane exBeam phantomB rfl]
    simp only [phantomB, List.map_cons, List.map_nil, List.cons.injEq, and_true]
    simp only [insideCone, decide_eq_false_iff_not, not_forall, not_le]
    refine ⟨3, ?_⟩
    rw [exBeam_N 3, exBeam_r 0, vec5_zero, beamN, vec4_three,
      edgeUnit_three, edgeUnit_zero, vec5_zero, vec5_four, vec5_one]
    exact dotN_pos (by norm_num [dot3, cross3, sub3])
      (by norm_num [dot3, sub3]) (by norm_num [dot3, sub3])

lemma c5Beam_r (i : Fin 5) :
    (mkBeam c5data 0 false).r i =
      vec5 (Vec3.mk 0 60 0) (Vec3.mk 0 (-100) 5) (Vec3.mk 0 (-100) (-5))
        (Vec3.mk 0 (-100) (-5)) (Vec3.mk 0 (-100) 5) i := by
  have h : (mkBeam c5data 0 false).r i = beamR 0 0 0 0 100 10 60 i := by
    simp [mkBeam, c5data]
  rw [h, beamR_zero]
  have e1 : Vec3.mk (0.5 * 0 : ℝ) (-1 * 100) (0.5 * 10) = Vec3.mk 0 (-100) 5 := by
    ext <;> norm_num
  have e2 : Vec3.mk (0.5 * 0 : ℝ) (-1 * 100) (-0.5 * 10) = Vec3.mk 0 (-100) (-5) := by
    ext <;> norm_num
  have e3 : Vec3.mk (-0.5 * 0 : ℝ) (-1 * 100) (-0.5 * 10) = Vec3.mk 0 (-100) (-5) := by
    ext <;> norm_num
  have e4 : Vec3.mk (-0.5 * 0 : ℝ) (-1 * 100) (0.5 * 10) = Vec3.mk 0 (-100) 5 := by
    ext <;> norm_num
  rw [e1, e2, e3, e4]

lemma c5Beam_N (k : Fin 4) :
    (mkBeam c5data 0 false).N k =
      beamN (vec5 (Vec3.mk 0 60 0) (Vec3.mk 0 (-100) 5) (Vec3.mk 0 (-100) (-5))
        (Vec3.mk 0 (-100) (-5)) (Vec3.mk 0 (-100) 5)) k := by
  have h : (mkBeam c5data 0 false).N = beamN (mkBeam c5data 0 false).r := rfl
  rw [h]
  exact congrFun (congrArg beamN (funext c5Beam_r)) k

/-- Claim C5 counterexample: with longitudinal collimation width zero (a
degenerate beam), the constructor and the hit test complete normally and
return a result, instead of raising any error: the isocenter point of a
plane phantom is reported hit. -/
theorem claim_C5_counterexample :
    check_hit (mkBeam c5data 0 false) phantomA = [true] := by
  rw [check_hit_plane (mkBeam c5data 0 false) phantomA rfl]
  simp only [phantomA, List.map_cons, List.map_nil, List.cons.injEq, and_true]
  simp only [insideCone, decide_eq_true_eq]
  intro k
  rw [c5Beam_N k, c5Beam_r 0, vec5_zero]
  fin_cases k
  · rw [show (⟨0, by norm_num⟩ : Fin 4) = 0 from rfl, beamN, vec4_zero,
      edgeUnit_zero, edgeUnit_one, vec5_zero, vec5_one, vec5_two]
    exact dotN_nonpos (by norm_num [dot3, cross3, sub3])
  · rw [show (⟨1, by norm_num⟩ : Fin 4) = 1 from rfl, beamN, vec4_one,
      edgeUnit_one, edgeUnit_two, vec5_zero, vec5_two, vec5_three]
    exact dotN_nonpos (by norm_num [dot3, cross3, sub3])
  · rw [show (⟨2, by norm_num⟩ : Fin 4) = 2 from rfl, beamN, vec4_two,
      edgeUnit_two, edgeUnit_three, vec5_zero, vec5_three, vec5_four]
    exact dotN_nonpos (by norm_num [dot3, cross3, sub3])
  · rw [show (⟨3, by norm_num⟩ : Fin 4) = 3 from rfl, beamN, vec4_three,
      edgeUnit_three, edgeUnit_zero, vec5_zero, vec5_four, vec5_one]
    exact dotN_nonpos (by norm_num [dot3, cross3, sub3])

/-- Claim C5 amended: the computation performs no input validation at
all; for a plane phantom, or a volumetric phantom with as many normals as
points, every input (including zero collimation widths and zero
distances) yields a complete hit list with one boolean per surface point,
and no error is ever raised. -/
theorem claim_C5_amended (data : DataNorm) (event : ℕ) (ps : Bool) (p : Phantom)
    (h : p.phantom_model = "plane" ∨ p.n.length = p.r.length) :
    (check_hit (mkBeam data event ps) p).length = p.r.length := by
  by_cases hm : p.phantom_model = "plane"
  · rw [check_hit_plane _ _ hm]
    exact List.length_map _ _
  · simp only [check_hit, if_pos hm]
    rw [scatterTrue_length, List.length_map, List.length_map]

/-- Witness for claim C5 (amended): the degenerate zero-collimation beam
still yields one boolean for the one-point plane phantom. -/
theorem claim_C5_witness :
    (phantomA.phantom_model = "plane" ∨ phantomA.n.length = phantomA.r.length) ∧
      (check_hit (mkBeam c5data 0 false) phantomA).length = phantomA.r.length :=
  ⟨Or.inl rfl, claim_C5_amended c5data 0 false phantomA (Or.inl rfl)⟩

/-- Claim C10: for every event and angle triple, the beam apex (row 0)
has Euclidean norm equal to the absolute value of the source-to-isocenter
distance. -/
theorem claim_C10 (data : DataNorm) (event : ℕ) (ps : Bool) :
    norm3 ((mkBeam data event ps).r 0) = |data.DSI event| := by
  simp only [mkBeam, beamR, vec5_zero]
  rw [norm3, dot3_beamRot_source, Real.sqrt_sq_eq_abs]

end PySkinDose
